import Mathlib

/-!
Verification of the expression evaluator of the `rust_calculator` repository
(`src/rust_calculator/src/main.rs`, function `parse_and_calculate`).

The evaluator is embedded shallowly:

* `splitWhitespace` models Rust's `str::split_whitespace` (split on runs of
  Unicode white space, discarding empty fragments) over `List Char`.
* The 64-bit floating-point type and its operations are abstracted into a
  `FloatModel`: the Rust function never inspects a float beyond the
  `num2 == 0.0` test, it only parses tokens and applies the hardware
  operations, so every structural claim is proved for an arbitrary model.
* `F64` together with `parseF64` and the `F64.add`/`sub`/`mul`/`div`
  operations is a concrete executable model of IEEE-754 binary64: NaN,
  signed infinities, signed zeros and nonzero finite values carried as exact
  rationals.  It implements the IEEE special-value and sign rules exactly;
  finite arithmetic is exact (rounding, overflow to infinity and subnormal
  effects are not modelled), so it is faithful precisely on computations
  whose operands and results are exactly representable — which covers every
  concrete input appearing below.  `parseF64` models the grammar of Rust's
  `f64::from_str` (optional sign; case-insensitive `inf`/`infinity`/`nan`;
  decimal mantissa with optional fraction and exponent) with exact decimal
  values.
* `parse_and_calculate` mirrors the Rust function line for line:
  `calcParts` is its body after the `split_whitespace` step, with the
  `parts.len() != 3` check realised as the three-element pattern match.
-/

/-- The Unicode `White_Space` code points, the separator set used by Rust's
`str::split_whitespace`. -/
def isRustWhitespace (c : Char) : Bool :=
  decide (c.toNat ∈ ([0x9, 0xA, 0xB, 0xC, 0xD, 0x20, 0x85, 0xA0, 0x1680,
    0x2000, 0x2001, 0x2002, 0x2003, 0x2004, 0x2005, 0x2006, 0x2007, 0x2008,
    0x2009, 0x200A, 0x2028, 0x2029, 0x202F, 0x205F, 0x3000] : List Nat))

/-- Worker for `splitWhitespace`; `acc` holds the reversed current token. -/
def splitWsAux : List Char → List Char → List (List Char)
  | [], acc => if acc.isEmpty then [] else [acc.reverse]
  | c :: cs, acc =>
    if isRustWhitespace c then
      if acc.isEmpty then splitWsAux cs []
      else acc.reverse :: splitWsAux cs []
    else splitWsAux cs (c :: acc)

/-- Model of Rust's `str::split_whitespace`: split on runs of white space,
producing the ordered list of nonempty tokens. -/
def splitWhitespace (s : List Char) : List (List Char) :=
  splitWsAux s []

/-- Concrete model of an IEEE-754 binary64 value: NaN (payload and sign
irrelevant to this program), signed infinity, signed zero, or a nonzero
finite value carried as an exact rational.  Invariant: `num q` is only built
with `q ≠ 0` (zeros are represented by the `zero` constructor). -/
inductive F64 where
  | nan : F64
  | inf : Bool → F64
  | zero : Bool → F64
  | num : ℚ → F64
deriving DecidableEq

/-- Sign bit of a value (`true` = negative); NaN's sign is irrelevant here. -/
def F64.sign : F64 → Bool
  | F64.nan => false
  | F64.inf s => s
  | F64.zero s => s
  | F64.num q => decide (q < 0)

/-- IEEE-754 negation: flip the sign bit. -/
def F64.neg : F64 → F64
  | F64.nan => F64.nan
  | F64.inf s => F64.inf (!s)
  | F64.zero s => F64.zero (!s)
  | F64.num q => F64.num (-q)

/-- IEEE-754 addition (round-to-nearest sign conventions for zeros; exact
finite arithmetic).  `(-0) + (-0) = -0`, every other zero sum is `+0`, and an
exactly cancelling finite sum is `+0`. -/
def F64.add : F64 → F64 → F64
  | F64.nan, _ => F64.nan
  | _, F64.nan => F64.nan
  | F64.inf s, F64.inf t => if s = t then F64.inf s else F64.nan
  | F64.inf s, _ => F64.inf s
  | _, F64.inf s => F64.inf s
  | F64.zero s, F64.zero t => F64.zero (s && t)
  | F64.zero _, F64.num q => F64.num q
  | F64.num q, F64.zero _ => F64.num q
  | F64.num a, F64.num b => if a + b = 0 then F64.zero false else F64.num (a + b)

/-- IEEE-754 subtraction, which coincides with adding the negation. -/
def F64.sub (x y : F64) : F64 :=
  F64.add x (F64.neg y)

/-- IEEE-754 multiplication (sign = XOR of signs; `0 * ∞ = NaN`; exact finite
arithmetic). -/
def F64.mul : F64 → F64 → F64
  | F64.nan, _ => F64.nan
  | _, F64.nan => F64.nan
  | F64.inf s, F64.inf t => F64.inf (xor s t)
  | F64.inf _, F64.zero _ => F64.nan
  | F64.zero _, F64.inf _ => F64.nan
  | F64.inf s, F64.num q => F64.inf (xor s (decide (q < 0)))
  | F64.num q, F64.inf s => F64.inf (xor (decide (q < 0)) s)
  | F64.zero s, F64.zero t => F64.zero (xor s t)
  | F64.zero s, F64.num q => F64.zero (xor s (decide (q < 0)))
  | F64.num q, F64.zero s => F64.zero (xor (decide (q < 0)) s)
  | F64.num a, F64.num b => F64.num (a * b)

/-- IEEE-754 division (sign = XOR of signs; `∞/∞ = 0/0 = NaN`; a nonzero
finite value divided by zero is a signed infinity; exact finite
arithmetic). -/
def F64.div : F64 → F64 → F64
  | F64.nan, _ => F64.nan
  | _, F64.nan => F64.nan
  | F64.inf _, F64.inf _ => F64.nan
  | F64.inf s, F64.zero t => F64.inf (xor s t)
  | F64.inf s, F64.num q => F64.inf (xor s (decide (q < 0)))
  | F64.zero _, F64.zero _ => F64.nan
  | F64.zero s, F64.inf t => F64.zero (xor s t)
  | F64.zero s, F64.num q => F64.zero (xor s (decide (q < 0)))
  | F64.num q, F64.inf s => F64.zero (xor (decide (q < 0)) s)
  | F64.num q, F64.zero s => F64.inf (xor (decide (q < 0)) s)
  | F64.num a, F64.num b => F64.num (a / b)

/-- The test `x == 0.0` of IEEE-754: true exactly on the two zeros (so it
holds for `-0.0`, and fails for NaN). -/
def F64.eqZero : F64 → Bool
  | F64.zero _ => true
  | _ => false

/-- Numeric value of a digit string (most significant first). -/
def digitsToNat (ds : List Char) : Nat :=
  ds.foldl (fun n c => n * 10 + (c.toNat - 48)) 0

/-- An optionally signed, nonempty, all-digit string as an integer. -/
def parseDigitsInt (neg : Bool) (ds : List Char) : Option Int :=
  if ds.isEmpty || !(ds.all Char.isDigit) then none
  else some (if neg then -(digitsToNat ds : Int) else (digitsToNat ds : Int))

/-- Exact value of a power of ten. -/
def pow10 (e : Int) : ℚ :=
  if 0 ≤ e then (10 : ℚ) ^ e.toNat else 1 / (10 : ℚ) ^ (-e).toNat

/-- The exponent suffix of a float literal: empty (exponent 0) or
`('e'|'E') sign? digit+`. -/
def parseExp : List Char → Option Int
  | [] => some 0
  | c :: r =>
    if c = 'e' || c = 'E' then
      match r with
      | '+' :: d => parseDigitsInt false d
      | '-' :: d => parseDigitsInt true d
      | d => parseDigitsInt false d
    else none

/-- Build an `F64` from a sign and an exact magnitude, keeping the invariant
that `num` is nonzero: a zero magnitude yields the signed zero. -/
def mkF64 (neg : Bool) (q : ℚ) : F64 :=
  if q = 0 then F64.zero neg else F64.num (if neg then -q else q)

/-- Mantissa-and-exponent part of Rust's float grammar:
`digit+ ('.' digit*)? exp?  |  digit* '.' digit+ exp?`, with its exact
decimal value. -/
def parseNumBody (neg : Bool) (s : List Char) : Option F64 :=
  let intPart := s.takeWhile Char.isDigit
  let r1 := s.dropWhile Char.isDigit
  let fracPart :=
    match r1 with
    | '.' :: r => r.takeWhile Char.isDigit
    | _ => []
  let r2 :=
    match r1 with
    | '.' :: r => r.dropWhile Char.isDigit
    | _ => r1
  if intPart.isEmpty && fracPart.isEmpty then none
  else
    match parseExp r2 with
    | none => none
    | some e =>
      some (mkF64 neg
        (((digitsToNat (intPart ++ fracPart) : ℚ) / (10 : ℚ) ^ fracPart.length)
          * pow10 e))

/-- Unsigned part of Rust's float grammar: case-insensitive `inf`,
`infinity` or `nan`, or a decimal mantissa with optional exponent. -/
def parseF64Body (neg : Bool) (s : List Char) : Option F64 :=
  let l := s.map Char.toLower
  if l = "inf".data || l = "infinity".data then some (F64.inf neg)
  else if l = "nan".data then some F64.nan
  else parseNumBody neg s

/-- Model of Rust's `f64::from_str` on a token: an optional sign followed by
the unsigned body, with exact decimal values (decimal-to-binary rounding and
overflow to infinity are not modelled). -/
def parseF64 : List Char → Option F64
  | '+' :: rest => parseF64Body false rest
  | '-' :: rest => parseF64Body true rest
  | s => parseF64Body false s

/-- An interpretation of the 64-bit float type used by the program: the
parsing of a token and the four arithmetic operations, plus the `== 0.0`
test.  The Rust code treats `f64` as exactly this signature, so structural
claims are proved for every interpretation. -/
structure FloatModel where
  F : Type
  fparse : List Char → Option F
  fadd : F → F → F
  fsub : F → F → F
  fmul : F → F → F
  fdiv : F → F → F
  eqZero : F → Bool

/-- The concrete interpretation by the exact IEEE-754 model above. -/
def RF64 : FloatModel :=
  ⟨F64, parseF64, F64.add, F64.sub, F64.mul, F64.div, F64.eqZero⟩

instance : DecidableEq RF64.F :=
  inferInstanceAs (DecidableEq F64)

/-- The wrong-token-count message of `parse_and_calculate` (verbatim). -/
def formatError : String := "Format should be: number operator number"

/-- The unparseable-operand message of `parse_and_calculate` (verbatim),
quoting the raw token text. -/
def numberError (t : List Char) : String :=
  "'" ++ String.mk t ++ "' is not a valid number"

/-- The division-by-zero message of `parse_and_calculate` (verbatim). -/
def divideByZeroError : String := "Cannot divide by zero!"

/-- The unsupported-operator message of `parse_and_calculate` (verbatim),
quoting the operator token. -/
def unsupportedError (op : List Char) : String :=
  "Unsupported operator: " ++ String.mk op

/-- Body of `parse_and_calculate` after the `split_whitespace` step.  The
Rust code checks `parts.len() != 3` and then indexes `parts[0]`, `parts[1]`,
`parts[2]`; here the length test and the indexing are the three-element
pattern.  Everything else follows the source line for line. -/
def calcParts (M : FloatModel) (parts : List (List Char)) : Except String M.F :=
  match parts with
  | [p0, p1, p2] =>
    match M.fparse p0 with
    | none => .error (numberError p0)
    | some num1 =>
      let operator := p1
      match M.fparse p2 with
      | none => .error (numberError p2)
      | some num2 =>
        if operator = ['+'] then .ok (M.fadd num1 num2)
        else if operator = ['-'] then .ok (M.fsub num1 num2)
        else if operator = ['*'] then .ok (M.fmul num1 num2)
        else if operator = ['/'] then
          if M.eqZero num2 then .error divideByZeroError
          else .ok (M.fdiv num1 num2)
        else .error (unsupportedError operator)
  | _ => .error formatError

/-- The evaluator `parse_and_calculate` of `main.rs`: split the input on
white space, then parse and dispatch. -/
def parse_and_calculate (M : FloatModel) (input : String) : Except String M.F :=
  calcParts M (splitWhitespace input.data)

/-! ## Helper lemmas -/

/-- The two error texts can never coincide: one starts with a quote, the
other with `U`. -/
theorem numberError_ne_unsupportedError (a b : List Char) :
    numberError a ≠ unsupportedError b := by
  intro h
  have hd := congrArg String.data h
  simp [numberError, unsupportedError, String.mk, String.append] at hd

/-- `calcParts` on a token list that is not a triple is the format error. -/
theorem calcParts_length_ne_three (M : FloatModel) (parts : List (List Char))
    (h : parts.length ≠ 3) : calcParts M parts = .error formatError := by
  cases parts with
  | nil => rfl
  | cons a t =>
    cases t with
    | nil => rfl
    | cons b t2 =>
      cases t2 with
      | nil => rfl
      | cons c t3 =>
        cases t3 with
        | nil => exact absurd rfl h
        | cons d t4 => rfl

/-! Evaluations of the concrete token parser on the tokens used below. -/

theorem RF64_parse_1 : RF64.fparse ['1'] = some (F64.num 1) := by
  simp [RF64, parseF64, parseF64Body, parseNumBody, parseExp, parseDigitsInt,
    digitsToNat, mkF64, pow10]

theorem RF64_parse_3 : RF64.fparse ['3'] = some (F64.num 3) := by
  simp [RF64, parseF64, parseF64Body, parseNumBody, parseExp, parseDigitsInt,
    digitsToNat, mkF64, pow10]

theorem RF64_parse_4 : RF64.fparse ['4'] = some (F64.num 4) := by
  simp [RF64, parseF64, parseF64Body, parseNumBody, parseExp, parseDigitsInt,
    digitsToNat, mkF64, pow10]

theorem RF64_parse_5 : RF64.fparse ['5'] = some (F64.num 5) := by
  simp [RF64, parseF64, parseF64Body, parseNumBody, parseExp, parseDigitsInt,
    digitsToNat, mkF64, pow10]

theorem RF64_parse_7 : RF64.fparse ['7'] = some (F64.num 7) := by
  simp [RF64, parseF64, parseF64Body, parseNumBody, parseExp, parseDigitsInt,
    digitsToNat, mkF64, pow10]

theorem RF64_parse_10 : RF64.fparse ['1', '0'] = some (F64.num 10) := by
  simp [RF64, parseF64, parseF64Body, parseNumBody, parseExp, parseDigitsInt,
    digitsToNat, mkF64, pow10]

theorem RF64_parse_15 : RF64.fparse ['1', '5'] = some (F64.num 15) := by
  simp [RF64, parseF64, parseF64Body, parseNumBody, parseExp, parseDigitsInt,
    digitsToNat, mkF64, pow10]

theorem RF64_parse_0 : RF64.fparse ['0'] = some (F64.zero false) := by
  simp [RF64, parseF64, parseF64Body, parseNumBody, parseExp, parseDigitsInt,
    digitsToNat, mkF64, pow10]

theorem RF64_parse_neg0 : RF64.fparse ['-', '0'] = some (F64.zero true) := by
  simp [RF64, parseF64, parseF64Body, parseNumBody, parseExp, parseDigitsInt,
    digitsToNat, mkF64, pow10]

theorem RF64_parse_neg5 : RF64.fparse ['-', '5'] = some (F64.num (-5)) := by
  simp [RF64, parseF64, parseF64Body, parseNumBody, parseExp, parseDigitsInt,
    digitsToNat, mkF64, pow10]

theorem RF64_parse_inf : RF64.fparse ['i', 'n', 'f'] = some (F64.inf false) := by
  decide

theorem RF64_parse_nan : RF64.fparse ['N', 'a', 'N'] = some F64.nan := by
  decide

theorem RF64_parse_abc : RF64.fparse ['a', 'b', 'c'] = none := by
  decide

/-! ## Claims -/

/-- C1: for every input line that splits into exactly three tokens whose
first and third tokens parse as 64-bit floats, `parse_and_calculate`
succeeds on each of the four operators `+`, `-`, `*`, `/` (the last provided
the right operand is not `== 0.0`) and returns exactly the result of the
corresponding floating-point operation on the two parsed operands.  The
statement holds for every interpretation `M` of the float type, in
particular the IEEE-754 one. -/
theorem wellformed_inputs_succeed (M : FloatModel) (input : String)
    (t0 t1 t2 : List Char) (x y : M.F)
    (hs : splitWhitespace input.data = [t0, t1, t2])
    (h0 : M.fparse t0 = some x) (h2 : M.fparse t2 = some y) :
    (t1 = ['+'] → parse_and_calculate M input = .ok (M.fadd x y)) ∧
    (t1 = ['-'] → parse_and_calculate M input = .ok (M.fsub x y)) ∧
    (t1 = ['*'] → parse_and_calculate M input = .ok (M.fmul x y)) ∧
    (t1 = ['/'] → M.eqZero y = false →
      parse_and_calculate M input = .ok (M.fdiv x y)) := by
  unfold parse_and_calculate
  rw [hs]
  refine ⟨?_, ?_, ?_, ?_⟩
  · intro h
    subst h
    simp [calcParts, h0, h2]
  · intro h
    subst h
    simp [calcParts, h0, h2]
  · intro h
    subst h
    simp [calcParts, h0, h2]
  · intro h hz
    subst h
    simp [calcParts, h0, h2, hz]

/-- Witness for C1: the four concrete scenarios `"5 + 3" = 8`,
`"10 - 4" = 6`, `"3 * 7" = 21` and `"15 / 3" = 5`. -/
theorem wellformed_inputs_succeed_witness :
    parse_and_calculate RF64 "5 + 3" = .ok (F64.num 8) ∧
    parse_and_calculate RF64 "10 - 4" = .ok (F64.num 6) ∧
    parse_and_calculate RF64 "3 * 7" = .ok (F64.num 21) ∧
    parse_and_calculate RF64 "15 / 3" = .ok (F64.num 5) := by
  refine ⟨?_, ?_, ?_, ?_⟩
  · rw [(wellformed_inputs_succeed RF64 "5 + 3" ['5'] ['+'] ['3']
      (F64.num 5) (F64.num 3) (by decide) RF64_parse_5 RF64_parse_3).1 rfl]
    show Except.ok (F64.add (F64.num 5) (F64.num 3)) = _
    norm_num [F64.add]
  · rw [(wellformed_inputs_succeed RF64 "10 - 4" ['1', '0'] ['-'] ['4']
      (F64.num 10) (F64.num 4) (by decide) RF64_parse_10 RF64_parse_4).2.1 rfl]
    show Except.ok (F64.sub (F64.num 10) (F64.num 4)) = _
    norm_num [F64.sub, F64.neg, F64.add]
  · rw [(wellformed_inputs_succeed RF64 "3 * 7" ['3'] ['*'] ['7']
      (F64.num 3) (F64.num 7) (by decide) RF64_parse_3 RF64_parse_7).2.2.1 rfl]
    show Except.ok (F64.mul (F64.num 3) (F64.num 7)) = _
    norm_num [F64.mul]
  · rw [(wellformed_inputs_succeed RF64 "15 / 3" ['1', '5'] ['/'] ['3']
      (F64.num 15) (F64.num 3) (by decide) RF64_parse_15 RF64_parse_3).2.2.2
      rfl rfl]
    show Except.ok (F64.div (F64.num 15) (F64.num 3)) = _
    norm_num [F64.div]

/-- C2: every input whose whitespace-split token count differs from 3 (the
empty line, `"5 +"`, `"5 + 3 + 2"`, ...) fails with the format error
`"Format should be: number operator number"`.  The result is the same for
every float interpretation `M`, so no operand parsing or operator dispatch
can influence it. -/
theorem wrong_token_count_fails (M : FloatModel) (input : String)
    (h : (splitWhitespace input.data).length ≠ 3) :
    parse_and_calculate M input = .error formatError :=
  calcParts_length_ne_three M (splitWhitespace input.data) h

/-- Witness for C2: the empty line, `"5 +"` and `"5 + 3 + 2"`. -/
theorem wrong_token_count_fails_witness :
    ((splitWhitespace "".data).length ≠ 3 ∧
      parse_and_calculate RF64 "" = .error formatError) ∧
    ((splitWhitespace "5 +".data).length ≠ 3 ∧
      parse_and_calculate RF64 "5 +" = .error formatError) ∧
    ((splitWhitespace "5 + 3 + 2".data).length ≠ 3 ∧
      parse_and_calculate RF64 "5 + 3 + 2" = .error formatError) :=
  ⟨⟨by decide, wrong_token_count_fails RF64 "" (by decide)⟩,
   ⟨by decide, wrong_token_count_fails RF64 "5 +" (by decide)⟩,
   ⟨by decide, wrong_token_count_fails RF64 "5 + 3 + 2" (by decide)⟩⟩

/-- C3: on a three-token input, if the first token does not parse as a float
the evaluator fails with the number error quoting exactly that token; if the
first parses and the third does not, it fails with the number error quoting
the third token (so the left token wins when both fail). -/
theorem bad_operand_token_fails (M : FloatModel) (input : String)
    (t0 t1 t2 : List Char)
    (hs : splitWhitespace input.data = [t0, t1, t2]) :
    (M.fparse t0 = none →
      parse_and_calculate M input = .error (numberError t0)) ∧
    (∀ x, M.fparse t0 = some x → M.fparse t2 = none →
      parse_and_calculate M input = .error (numberError t2)) := by
  unfold parse_and_calculate
  rw [hs]
  constructor
  · intro h0
    simp [calcParts, h0]
  · intro x h0 h2
    simp [calcParts, h0, h2]

/-- Witness for C3: `"abc + 3"` and `"5 + abc"` both report
`'abc' is not a valid number`. -/
theorem bad_operand_token_fails_witness :
    parse_and_calculate RF64 "abc + 3" = .error (numberError "abc".data) ∧
    parse_and_calculate RF64 "5 + abc" = .error (numberError "abc".data) :=
  ⟨(bad_operand_token_fails RF64 "abc + 3" "abc".data "+".data "3".data
      (by decide)).1 RF64_parse_abc,
   (bad_operand_token_fails RF64 "5 + abc" "5".data "+".data "abc".data
      (by decide)).2 (F64.num 5) RF64_parse_5 RF64_parse_abc⟩

/-- C4: on a three-token input with operator `/` and both operands parsed,
the evaluator fails with `"Cannot divide by zero!"` exactly when the right
operand satisfies the `== 0.0` test, and otherwise returns the quotient. -/
theorem division_by_zero_guard (M : FloatModel) (input : String)
    (t0 t2 : List Char) (x y : M.F)
    (hs : splitWhitespace input.data = [t0, ['/'], t2])
    (h0 : M.fparse t0 = some x) (h2 : M.fparse t2 = some y) :
    (M.eqZero y = true →
      parse_and_calculate M input = .error divideByZeroError) ∧
    (M.eqZero y = false →
      parse_and_calculate M input = .ok (M.fdiv x y)) := by
  unfold parse_and_calculate
  rw [hs]
  constructor <;> intro hz <;> simp [calcParts, h0, h2, hz]

/-- Witness for C4: `"10 / 0"` fails with the division error, while
`"0 / 10"` succeeds and returns `+0.0`. -/
theorem division_by_zero_guard_witness :
    parse_and_calculate RF64 "10 / 0" = .error divideByZeroError ∧
    parse_and_calculate RF64 "0 / 10" = .ok (F64.zero false) := by
  constructor
  · exact (division_by_zero_guard RF64 "10 / 0" ['1', '0'] ['0']
      (F64.num 10) (F64.zero false) (by decide) RF64_parse_10 RF64_parse_0).1 rfl
  · rw [(division_by_zero_guard RF64 "0 / 10" ['0'] ['1', '0']
      (F64.zero false) (F64.num 10) (by decide) RF64_parse_0 RF64_parse_10).2 rfl]
    show Except.ok (F64.div (F64.zero false) (F64.num 10)) = _
    norm_num [F64.div]

/-- C5: on a three-token input whose operands both parse, any operator token
outside the set `+`, `-`, `*`, `/` makes the evaluator fail with the
unsupported-operator error naming that token. -/
theorem unsupported_operator_fails (M : FloatModel) (input : String)
    (t0 t1 t2 : List Char) (x y : M.F)
    (hs : splitWhitespace input.data = [t0, t1, t2])
    (h0 : M.fparse t0 = some x) (h2 : M.fparse t2 = some y)
    (hop : t1 ≠ ['+'] ∧ t1 ≠ ['-'] ∧ t1 ≠ ['*'] ∧ t1 ≠ ['/']) :
    parse_and_calculate M input = .error (unsupportedError t1) := by
  unfold parse_and_calculate
  rw [hs]
  simp [calcParts, h0, h2, hop.1, hop.2.1, hop.2.2.1, hop.2.2.2]

/-- Witness for C5: `"5 % 3"` fails with `Unsupported operator: %`. -/
theorem unsupported_operator_fails_witness :
    parse_and_calculate RF64 "5 % 3" = .error (unsupportedError "%".data) :=
  unsupported_operator_fails RF64 "5 % 3" ['5'] ['%'] ['3']
    (F64.num 5) (F64.num 3) (by decide) RF64_parse_5 RF64_parse_3
    ⟨by decide, by decide, by decide, by decide⟩

/-- C6: the checks run in the fixed order format, left operand, right
operand, operator: on a three-token input an unparseable first token yields
the left number error whatever the operator token is (never the
unsupported-operator error), and a parseable first token with an unparseable
third token yields the right number error before any operator dispatch. -/
theorem error_check_order (M : FloatModel) (input : String)
    (t0 t1 t2 : List Char)
    (hs : splitWhitespace input.data = [t0, t1, t2]) :
    (M.fparse t0 = none →
      parse_and_calculate M input = .error (numberError t0) ∧
      parse_and_calculate M input ≠ .error (unsupportedError t1)) ∧
    (∀ x, M.fparse t0 = some x → M.fparse t2 = none →
      parse_and_calculate M input = .error (numberError t2) ∧
      parse_and_calculate M input ≠ .error (unsupportedError t1)) := by
  unfold parse_and_calculate
  rw [hs]
  constructor
  · intro h0
    constructor
    · simp [calcParts, h0]
    · simp [calcParts, h0, numberError_ne_unsupportedError]
  · intro x h0 h2
    constructor
    · simp [calcParts, h0, h2]
    · simp [calcParts, h0, h2, numberError_ne_unsupportedError]

/-- Witness for C6: `"abc % 3"` and `"5 % abc"` report the number error for
`abc`, not the operator error for `%`. -/
theorem error_check_order_witness :
    parse_and_calculate RF64 "abc % 3" = .error (numberError "abc".data) ∧
    parse_and_calculate RF64 "5 % abc" = .error (numberError "abc".data) :=
  ⟨((error_check_order RF64 "abc % 3" "abc".data "%".data "3".data
      (by decide)).1 RF64_parse_abc).1,
   ((error_check_order RF64 "5 % abc" "5".data "%".data "abc".data
      (by decide)).2 (F64.num 5) RF64_parse_5 RF64_parse_abc).1⟩

/-- C7: `parse_and_calculate` is a pure deterministic function.  In this
embedding the Rust function (which touches no global state and performs no
I/O) is a total function of its input alone, so two evaluations of the same
input are equal. -/
theorem evaluator_deterministic (M : FloatModel) (input : String) :
    parse_and_calculate M input = parse_and_calculate M input :=
  rfl

/-- C8: the evaluator only sees the whitespace-split token list, so any two
input strings with the same token list — whatever the amount or kind of
whitespace between tokens, leading or trailing — evaluate to the same
result. -/
theorem whitespace_invariance (M : FloatModel) (s1 s2 : String)
    (h : splitWhitespace s1.data = splitWhitespace s2.data) :
    parse_and_calculate M s1 = parse_and_calculate M s2 := by
  unfold parse_and_calculate
  rw [h]

/-- Witness for C8: extra blanks, a tab and trailing whitespace do not change
the result of `"5 + 3"`. -/
theorem whitespace_invariance_witness :
    splitWhitespace "  5\t+   3 ".data = splitWhitespace "5 + 3".data ∧
    parse_and_calculate RF64 "  5\t+   3 " = parse_and_calculate RF64 "5 + 3" :=
  ⟨by decide, whitespace_invariance RF64 "  5\t+   3 " "5 + 3" (by decide)⟩

/-- C9: operand tokens go through the full `f64` grammar, so signed and
special literals are accepted: `"-5 + 3"` returns `-2.0`, `"inf + 1"`
returns positive infinity, and `"NaN + 1"` returns NaN. -/
theorem signed_and_special_literals :
    parse_and_calculate RF64 "-5 + 3" = .ok (F64.num (-2)) ∧
    parse_and_calculate RF64 "inf + 1" = .ok (F64.inf false) ∧
    parse_and_calculate RF64 "NaN + 1" = .ok F64.nan := by
  refine ⟨?_, ?_, ?_⟩
  · have hs : splitWhitespace "-5 + 3".data = [['-', '5'], ['+'], ['3']] := by
      decide
    unfold parse_and_calculate
    rw [hs]
    simp [calcParts, RF64_parse_neg5, RF64_parse_3]
    show F64.add (F64.num (-5)) (F64.num 3) = F64.num (-2)
    norm_num [F64.add]
  · have hs : splitWhitespace "inf + 1".data = [['i', 'n', 'f'], ['+'], ['1']] := by
      decide
    unfold parse_and_calculate
    rw [hs]
    simp [calcParts, RF64_parse_inf, RF64_parse_1]
    rfl
  · have hs : splitWhitespace "NaN + 1".data = [['N', 'a', 'N'], ['+'], ['1']] := by
      decide
    unfold parse_and_calculate
    rw [hs]
    simp [calcParts, RF64_parse_nan, RF64_parse_1]
    rfl

/-- C10: the divide-by-zero guard uses the floating-point `== 0.0` test, so a
right operand of `-0` (which is `== 0.0` in IEEE-754) triggers the division
error, while a NaN right operand (never `== 0.0`) does not — `"1 / NaN"`
returns NaN. -/
theorem negative_zero_and_nan_divisor :
    parse_and_calculate RF64 "1 / -0" = .error divideByZeroError ∧
    parse_and_calculate RF64 "1 / NaN" = .ok F64.nan := by
  constructor
  · have hs : splitWhitespace "1 / -0".data = [['1'], ['/'], ['-', '0']] := by
      decide
    unfold parse_and_calculate
    rw [hs]
    simp [calcParts, RF64_parse_1, RF64_parse_neg0]
    rfl
  · have hs : splitWhitespace "1 / NaN".data = [['1'], ['/'], ['N', 'a', 'N']] := by
      decide
    unfold parse_and_calculate
    rw [hs]
    simp [calcParts, RF64_parse_1, RF64_parse_nan]
    rfl
